import Mathlib

/-!
Shallow embedding of `src/client/send.rs` of the `deep_space` Cosmos gRPC
client: the broadcaster (`send_transaction`), the simulator (`simulate_tx`)
and the confirmation poller (`wait_for_tx`), together with theorems about
their outcome classification, error handling and polling behaviour.

Durations are modelled in milliseconds as `Nat`.  The network is modelled
as an environment giving, for each call index, the reply of that call, and
the wall clock is modelled by explicit elapsed-time arithmetic: the loop of
`wait_for_tx` reads the clock once at each loop-condition check and once
inside a fatal-error branch, and each remain-in-polling iteration advances
it by the query round-trip latency plus the one-second sleep.
-/

namespace DeepSpace

/-- Status codes of the tonic gRPC library (`tonic::Code`), matched by
`wait_for_tx` on a failed query. -/
inductive TonicCode
  | ok
  | cancelled
  | unknown
  | invalidArgument
  | deadlineExceeded
  | notFound
  | alreadyExists
  | permissionDenied
  | resourceExhausted
  | failedPrecondition
  | aborted
  | outOfRange
  | unimplemented
  | internal
  | unavailable
  | dataLoss
  | unauthenticated
  deriving DecidableEq, Repr

/-- Node-reported transaction record (the `TxResponse` proto), restricted to
the fields this client reads: the transaction hash, the result code
(0 = success, nonzero = application-level failure) and the raw log. -/
structure TxResponse where
  txhash : String
  code : Nat
  raw_log : String
  deriving DecidableEq, Repr

/-- Gas estimate record (the `GasInfo` proto) returned by the simulate RPC. -/
structure GasInfo where
  gas_wanted : Nat
  gas_used : Nat
  deriving DecidableEq, Repr

/-- Modelled from the spec: the `FeeInfo` payload produced by
`determine_min_fees_and_gas` (crate::utils, not among the sources) — the
minimum fee amount and/or minimum gas observed from a fee-rejection
response. -/
structure FeeInfo where
  min_fee : Option Nat
  min_gas : Option Nat
  deriving DecidableEq, Repr

/-- Modelled from the spec: the crate error enum `CosmosGrpcError`
(crate::error, not among the sources).  The variants are those used by
`send.rs` plus the spec's error taxonomy: `requestError` keeps the status
code of the carried `tonic::Status`; `transactionFailed` carries the last
known response and the elapsed wait time (milliseconds); `connectionError`
stands for the transport-failure variants; `malformedResponse` is the
spec's name for a reply missing a required payload field. -/
inductive CosmosGrpcError
  | requestError (code : TonicCode)
  | insufficientFees (fee_info : FeeInfo)
  | transactionFailed (tx : TxResponse) (time : Nat)
  | connectionError (msg : String)
  | malformedResponse (msg : String)
  deriving DecidableEq, Repr

/-- Outcome of running a Rust function that may panic: either a panic (such
as `Option::unwrap` applied to `None`) or the value the function returned. -/
inductive PanicOr (α : Type)
  | panicked (msg : String)
  | value (v : α)
  deriving DecidableEq, Repr

/-- Message of the Rust panic raised by `Option::unwrap` on `None`. -/
def unwrapPanicMsg : String := "called Option::unwrap() on a None value"

/-- Modelled from the spec: `check_tx_response` (crate::utils, not among the
sources) reports whether a `TxResponse` carries a successful execution
result — result code zero means success, nonzero means failure. -/
def check_tx_response (response : TxResponse) : Bool :=
  response.code == 0

/-- Embedding of `Contact::send_transaction` (src/client/send.rs) from the
point where the broadcast RPC has produced its reply.  `reply` is the
`tx_response` field of the `BroadcastTxResponse`, unwrapped by the source
(`.unwrap()`, hence the panic on `none`); `determine_min_fees_and_gas`
(crate::utils, not among the sources) is abstracted as a parameter, per the
spec a best-effort extraction of a fee-rejection signal from the response. -/
def send_transaction (determine_min_fees_and_gas : TxResponse → Option FeeInfo)
    (reply : Option TxResponse) : PanicOr (Except CosmosGrpcError TxResponse) :=
  match reply with
  | none => .panicked unwrapPanicMsg
  | some response =>
    match determine_min_fees_and_gas response with
    | some v => .value (.error (.insufficientFees v))
    | none =>
      if check_tx_response response then .value (.ok response)
      else .value (.error (.transactionFailed response 0))

/-- Embedding of `Contact::simulate_tx` (src/client/send.rs) from the point
where the simulate RPC has produced its reply.  `reply` is the `gas_info`
field of the `SimulateResponse`, unwrapped by the source (`.unwrap()`,
hence the panic on `none`). -/
def simulate_tx (reply : Option GasInfo) : PanicOr (Except CosmosGrpcError GasInfo) :=
  match reply with
  | none => .panicked unwrapPanicMsg
  | some gas_info => .value (.ok gas_info)

/-- Reply shape of the query-by-hash RPC (the `GetTxResponse` proto): an
optional `tx_response` payload. -/
structure GetTxResponse where
  tx_response : Option TxResponse
  deriving DecidableEq, Repr

/-- One observation of `Contact::get_tx_by_hash`: either a reply record or a
`CosmosGrpcError`. -/
abbrev QueryOutcome := Except CosmosGrpcError GetTxResponse

/-- One second in milliseconds, the fixed sleep of the polling loop. -/
def oneSecond : Nat := 1000

/-- The status codes `wait_for_tx` treats as "transaction not yet visible":
`NotFound | Unknown | InvalidArgument`. -/
def isAbsentCode (c : TonicCode) : Bool :=
  match c with
  | .notFound | .unknown | .invalidArgument => true
  | _ => false

/-- Observable events of one run of `wait_for_tx`: the i-th query-by-hash
call issued, and each sleep with its duration in milliseconds. -/
inductive Event
  | queried (i : Nat)
  | slept (ms : Nat)
  deriving DecidableEq, Repr

/-- Polling environment of `wait_for_tx`: `query i` is the outcome of the
i-th `get_tx_by_hash` call and `lat i` its round-trip latency in
milliseconds. -/
structure PollEnv where
  query : Nat → QueryOutcome
  lat : Nat → Nat

/-- The polling loop of `Contact::wait_for_tx` (src/client/send.rs).  `t` is
the elapsed time `Instant::now() - start` at the loop-condition check of
iteration `k`; within iteration `k` the query takes `env.lat k` further
milliseconds (so the clock read in the fatal-error branch shows
`t + env.lat k`), and each remain-in-polling outcome sleeps `oneSecond`
before the next check.  Returns the loop's result paired with the trace of
queries and sleeps.  `fuel` bounds the recursion; `none` means the fuel ran
out (impossible for the fuel chosen by `wait_for_tx`, see
`waitForTxGo_isSome`). -/
def waitForTxGo (env : PollEnv) (response : TxResponse) (timeout : Nat) :
    Nat → Nat → Nat → Option (Except CosmosGrpcError TxResponse × List Event)
  | 0, _, t =>
    if t < timeout then none
    else some (.error (.transactionFailed response timeout), [])
  | fuel + 1, k, t =>
    if t < timeout then
      match env.query k with
      | .ok status =>
        match status.tx_response with
        | some res => some (.ok res, [.queried k])
        | none =>
          (waitForTxGo env response timeout fuel (k + 1) (t + env.lat k + oneSecond)).map
            (fun r => (r.1, .queried k :: .slept oneSecond :: r.2))
      | .error (.requestError c) =>
        if isAbsentCode c then
          (waitForTxGo env response timeout fuel (k + 1) (t + env.lat k + oneSecond)).map
            (fun r => (r.1, .queried k :: .slept oneSecond :: r.2))
        else
          some (.error (.transactionFailed response (t + env.lat k)), [.queried k])
      | .error e => some (.error e, [.queried k])
    else
      some (.error (.transactionFailed response timeout), [])

/-- Embedding of `Contact::wait_for_tx` (src/client/send.rs): polls
`get_tx_by_hash` for the hash of `response` until a populated reply
arrives, an unrecoverable error occurs, or `timeout` milliseconds elapse.
`t0` is the elapsed time at the first loop-condition check (0 in the source
up to clock resolution).  The fuel `timeout + 1` always suffices because
every iteration advances the clock by at least `oneSecond`. -/
def wait_for_tx (env : PollEnv) (response : TxResponse) (timeout t0 : Nat) :
    Option (Except CosmosGrpcError TxResponse × List Event) :=
  waitForTxGo env response timeout (timeout + 1) 0 t0

/-- A query outcome on which the loop of `wait_for_tx` remains in polling: a
successful reply with an empty payload, or a `RequestError` whose status
code is in the absent whitelist.  Every other outcome terminates the loop. -/
def isPollingOutcome (q : QueryOutcome) : Bool :=
  match q with
  | .ok status => status.tx_response.isNone
  | .error (.requestError c) => isAbsentCode c
  | .error _ => false

/-- Elapsed time at the loop-condition check after `j` remain-in-polling
iterations have run, starting from iteration index `k` at elapsed time `t`:
each iteration adds its query latency and the one-second sleep. -/
def stepTime (env : PollEnv) (k t : Nat) : Nat → Nat
  | 0 => t
  | j + 1 => stepTime env (k + 1) (t + env.lat k + oneSecond) j

/-- Event trace of `j` remain-in-polling iterations starting at iteration
index `k`: each iteration issues one query and sleeps one second. -/
def pollTraceFrom (env : PollEnv) (k : Nat) : Nat → List Event
  | 0 => []
  | j + 1 => .queried k :: .slept oneSecond :: pollTraceFrom env (k + 1) j

/-- A node response whose execution result failed (nonzero code), used to
exhibit that `wait_for_tx` returns such a response as a success value. -/
def failedExecRes : TxResponse := { txhash := "ABC", code := 5, raw_log := "out of gas" }

/-- Environment whose every query returns a populated reply carrying
`failedExecRes`. -/
def envC1 : PollEnv :=
  { query := fun _ => .ok { tx_response := some failedExecRes }, lat := fun _ => 0 }

/-- The provisional broadcast response handed to `wait_for_tx` in the
concrete runs below. -/
def provisionalRes : TxResponse := { txhash := "ABC", code := 0, raw_log := "" }

/-- Environment whose first query fails with `PermissionDenied`, a status
outside the absent whitelist. -/
def envC2 : PollEnv :=
  { query := fun _ => .error (.requestError .permissionDenied), lat := fun _ => 7 }

/-- Environment whose every query fails with the whitelisted `Unknown`
status. -/
def envC3 : PollEnv :=
  { query := fun _ => .error (.requestError .unknown), lat := fun _ => 0 }

/-- Environment whose every query fails with `NotFound`: the transaction
never becomes visible. -/
def envC4 : PollEnv :=
  { query := fun _ => .error (.requestError .notFound), lat := fun _ => 0 }

/-- Environment whose first query already returns a populated reply carrying
`provisionalRes`. -/
def envC7 : PollEnv :=
  { query := fun _ => .ok { tx_response := some provisionalRes }, lat := fun _ => 0 }

/-- Environment whose first query returns an empty payload and whose later
queries return a populated reply: one retry with one sleep. -/
def envC9 : PollEnv :=
  { query := fun i =>
      if i = 0 then .ok { tx_response := none }
      else .ok { tx_response := some provisionalRes },
    lat := fun _ => 0 }

/-- A fee-detection function that extracts a fee requirement exactly from
responses whose raw log is the literal "insufficient fees". -/
def feeSigC5 : TxResponse → Option FeeInfo := fun r =>
  if r.raw_log = "insufficient fees" then some { min_fee := some 25, min_gas := some 100000 }
  else none

/-- A broadcast response carrying a fee-rejection signal and a nonzero
result code. -/
def resC5fee : TxResponse := { txhash := "H", code := 13, raw_log := "insufficient fees" }

/-- A broadcast response with result code zero and no fee signal. -/
def resC5ok : TxResponse := { txhash := "H", code := 0, raw_log := "" }

/-- A broadcast response with a nonzero result code and no fee signal. -/
def resC5bad : TxResponse := { txhash := "H", code := 11, raw_log := "failed" }

/-- A fee-detection function that never reports a fee rejection. -/
def noFeeSignalC6 : TxResponse → Option FeeInfo := fun _ => none

/-- A fee-detection function that never reports a fee rejection, for the
broadcast-failure run. -/
def noFeeSignalC8 : TxResponse → Option FeeInfo := fun _ => none

/-- A broadcast response with a nonzero result code and no fee signal, for
the broadcast-failure run. -/
def resC8 : TxResponse := { txhash := "H", code := 3, raw_log := "tx failed" }

theorem waitForTxGo_isSome (env : PollEnv) (response : TxResponse) (timeout : Nat) :
    ∀ fuel k t, timeout ≤ t + fuel →
      (waitForTxGo env response timeout fuel k t).isSome := by
  intro fuel
  induction fuel with
  | zero =>
    intro k t h
    simp only [waitForTxGo]
    have : ¬ t < timeout := by omega
    simp [this]
  | succ fuel ih =>
    intro k t h
    simp only [waitForTxGo]
    by_cases ht : t < timeout
    · simp only [ht, if_true]
      cases hq : env.query k with
      | ok status =>
        cases hs : status.tx_response with
        | some res => simp [hs]
        | none =>
          have := ih (k + 1) (t + env.lat k + oneSecond) (by simp [oneSecond]; omega)
          simp [hs, Option.isSome_map, this]
      | error e =>
        cases e with
        | requestError c =>
          by_cases hc : isAbsentCode c
          · have := ih (k + 1) (t + env.lat k + oneSecond) (by simp [oneSecond]; omega)
            simp [hc, Option.isSome_map, this]
          · simp [hc]
        | insufficientFees v => simp
        | transactionFailed tx time => simp
        | connectionError msg => simp
        | malformedResponse msg => simp
    · simp [ht]

theorem wait_for_tx_isSome (env : PollEnv) (response : TxResponse) (timeout t0 : Nat) :
    (wait_for_tx env response timeout t0).isSome :=
  waitForTxGo_isSome env response timeout (timeout + 1) 0 t0 (by omega)

theorem stepTime_lower_bound (env : PollEnv) :
    ∀ j k t, t + j ≤ stepTime env k t j := by
  intro j
  induction j with
  | zero => intro k t; simp [stepTime]
  | succ j ih =>
    intro k t
    have := ih (k + 1) (t + env.lat k + oneSecond)
    simp only [stepTime]
    have hone : 1 ≤ oneSecond := by simp [oneSecond]
    omega

/-- Running the loop through `j` remain-in-polling iterations: if the first
`j` query outcomes starting at index `k` keep the loop polling and every
loop-condition check along the way passes, the run equals the run from the
state after those `j` iterations, with the `j` query/sleep pairs prepended
to the trace. -/
theorem waitForTxGo_polling_prefix (env : PollEnv) (response : TxResponse) (timeout : Nat) :
    ∀ j fuel k t,
      (∀ i, i < j → isPollingOutcome (env.query (k + i)) = true) →
      (∀ i, i < j → stepTime env k t i < timeout) →
      waitForTxGo env response timeout (fuel + j) k t =
        (waitForTxGo env response timeout fuel (k + j) (stepTime env k t j)).map
          (fun r => (r.1, pollTraceFrom env k j ++ r.2)) := by
  intro j
  induction j with
  | zero =>
    intro fuel k t _ _
    simp [stepTime, pollTraceFrom]
  | succ j ih =>
    intro fuel k t hpoll hin
    have ht : t < timeout := by
      have := hin 0 (by omega)
      simpa [stepTime] using this
    have hq0 : isPollingOutcome (env.query k) = true := by
      have := hpoll 0 (by omega)
      simpa using this
    have hstep : waitForTxGo env response timeout (fuel + j + 1) k t =
        (waitForTxGo env response timeout (fuel + j) (k + 1) (t + env.lat k + oneSecond)).map
          (fun r => (r.1, .queried k :: .slept oneSecond :: r.2)) := by
      simp only [waitForTxGo, ht, if_true]
      cases hq : env.query k with
      | ok status =>
        cases hs : status.tx_response with
        | some res =>
          rw [hq] at hq0
          simp [isPollingOutcome, hs] at hq0
        | none => simp [hs]
      | error e =>
        cases e with
        | requestError c =>
          rw [hq] at hq0
          simp only [isPollingOutcome] at hq0
          simp [hq0]
        | insufficientFees v => rw [hq] at hq0; simp [isPollingOutcome] at hq0
        | transactionFailed tx time => rw [hq] at hq0; simp [isPollingOutcome] at hq0
        | connectionError msg => rw [hq] at hq0; simp [isPollingOutcome] at hq0
        | malformedResponse msg => rw [hq] at hq0; simp [isPollingOutcome] at hq0
    have hshiftpoll : ∀ i, i < j →
        isPollingOutcome (env.query (k + 1 + i)) = true := by
      intro i hi
      have := hpoll (i + 1) (by omega)
      have harg : k + (i + 1) = k + 1 + i := by omega
      rwa [harg] at this
    have hshiftin : ∀ i, i < j →
        stepTime env (k + 1) (t + env.lat k + oneSecond) i < timeout := by
      intro i hi
      have := hin (i + 1) (by omega)
      simpa [stepTime] using this
    have harr : fuel + (j + 1) = fuel + j + 1 := by omega
    rw [harr, hstep, ih fuel (k + 1) (t + env.lat k + oneSecond) hshiftpoll hshiftin]
    have hk : k + 1 + j = k + (j + 1) := by omega
    simp only [stepTime, pollTraceFrom, hk, Option.map_map]
    rfl

/-- C7: for every call to `wait_for_tx` whose first query-by-hash returns a
populated response, the call returns that response as success within the
first iteration — the trace holds exactly one query and no sleep. -/
theorem wait_for_tx_first_query_confirms
    (env : PollEnv) (response : TxResponse) (timeout t0 : Nat) (res : TxResponse)
    (ht : t0 < timeout) (hq : env.query 0 = .ok { tx_response := some res }) :
    wait_for_tx env response timeout t0 = some (.ok res, [.queried 0]) := by
  simp only [wait_for_tx, waitForTxGo, ht, if_true, hq]

/-- Witness for C7: a run against an environment whose first query already
returns a populated reply ends at once with that reply. -/
theorem wait_for_tx_first_query_confirms_witness :
    wait_for_tx envC7 provisionalRes 10 0 = some (.ok provisionalRes, [.queried 0]) :=
  wait_for_tx_first_query_confirms envC7 provisionalRes 10 0 provisionalRes
    (by decide) rfl

/-- C10: for every call to `wait_for_tx` with a zero timeout, or whose
timeout is already elapsed at the first loop-condition check, no query is
issued at all (empty trace) and the call returns a `TransactionFailed`
error carrying the input provisional response and the configured timeout
as elapsed time. -/
theorem wait_for_tx_zero_budget_no_query
    (env : PollEnv) (response : TxResponse) (timeout t0 : Nat)
    (h : timeout = 0 ∨ timeout ≤ t0) :
    wait_for_tx env response timeout t0 =
      some (.error (.transactionFailed response timeout), []) := by
  have ht : ¬ t0 < timeout := by omega
  simp [wait_for_tx, waitForTxGo, ht]

/-- Witness for C10: a zero-timeout run issues no query and reports the
timeout failure with elapsed time zero, the configured timeout. -/
theorem wait_for_tx_zero_budget_no_query_witness :
    wait_for_tx envC7 provisionalRes 0 0 =
      some (.error (.transactionFailed provisionalRes 0), []) :=
  wait_for_tx_zero_budget_no_query envC7 provisionalRes 0 0 (Or.inl rfl)

/-- C2: for every call to `wait_for_tx` in which, after any number of
remain-in-polling iterations, a query fails with a `RequestError` whose
status code is outside the whitelist {NotFound, Unknown, InvalidArgument},
the call returns at that very query (no further sleep or query in the
trace) a `TransactionFailed` error carrying the original provisional
response passed in and the elapsed wait time — not the query error
itself. -/
theorem wait_for_tx_fatal_status_fails_fast
    (env : PollEnv) (response : TxResponse) (timeout t0 j : Nat) (c : TonicCode)
    (hpoll : ∀ i, i < j → isPollingOutcome (env.query i) = true)
    (hin : ∀ i, i ≤ j → stepTime env 0 t0 i < timeout)
    (hq : env.query j = .error (.requestError c))
    (hc : isAbsentCode c = false) :
    wait_for_tx env response timeout t0 =
      some (.error (.transactionFailed response (stepTime env 0 t0 j + env.lat j)),
        pollTraceFrom env 0 j ++ [.queried j]) := by
  have htj : stepTime env 0 t0 j < timeout := hin j (le_refl j)
  have hjle : t0 + j ≤ stepTime env 0 t0 j := stepTime_lower_bound env j 0 t0
  have hfuel : timeout + 1 = (timeout - j) + 1 + j := by omega
  rw [wait_for_tx, hfuel,
    waitForTxGo_polling_prefix env response timeout j ((timeout - j) + 1) 0 t0
      (fun i hi => by simpa using hpoll i hi)
      (fun i hi => hin i (Nat.le_of_lt hi))]
  simp only [Nat.zero_add]
  simp [waitForTxGo, htj, hq, hc]

/-- Witness for C2: a first query failing with `PermissionDenied` ends the
call at once with a `TransactionFailed` error carrying the provisional
response and the elapsed time (here the 7 ms query latency). -/
theorem wait_for_tx_fatal_status_fails_fast_witness :
    wait_for_tx envC2 provisionalRes 10 0 =
      some (.error (.transactionFailed provisionalRes 7), [.queried 0]) :=
  wait_for_tx_fatal_status_fails_fast envC2 provisionalRes 10 0 0 .permissionDenied
    (fun i hi => absurd hi (Nat.not_lt_zero i))
    (fun i hi => by
      have : i = 0 := Nat.le_zero.mp hi
      subst this
      decide)
    rfl rfl

/-- C1, counterexample: a query of `wait_for_tx` returns a populated
response whose result code is nonzero (a failed execution), and the call
returns it as a success value — contradicting the claim that a nonzero
code yields a confirmed failure and that no success value ever carries a
failed execution result. -/
theorem wait_for_tx_success_with_nonzero_code :
    wait_for_tx envC1 provisionalRes 10 0 = some (.ok failedExecRes, [.queried 0]) ∧
    failedExecRes.code ≠ 0 := by
  exact ⟨rfl, by decide⟩

/-- C1, amended: for every call to `wait_for_tx` in which a query returns a
populated response, that response is returned to the caller as a success
value regardless of its result code — the status classifier is not applied
to polled responses. -/
theorem wait_for_tx_returns_any_populated_response
    (env : PollEnv) (response : TxResponse) (timeout t0 j : Nat) (res : TxResponse)
    (hpoll : ∀ i, i < j → isPollingOutcome (env.query i) = true)
    (hin : ∀ i, i ≤ j → stepTime env 0 t0 i < timeout)
    (hq : env.query j = .ok { tx_response := some res }) :
    wait_for_tx env response timeout t0 =
      some (.ok res, pollTraceFrom env 0 j ++ [.queried j]) := by
  have htj : stepTime env 0 t0 j < timeout := hin j (le_refl j)
  have hjle : t0 + j ≤ stepTime env 0 t0 j := stepTime_lower_bound env j 0 t0
  have hfuel : timeout + 1 = (timeout - j) + 1 + j := by omega
  rw [wait_for_tx, hfuel,
    waitForTxGo_polling_prefix env response timeout j ((timeout - j) + 1) 0 t0
      (fun i hi => by simpa using hpoll i hi)
      (fun i hi => hin i (Nat.le_of_lt hi))]
  simp only [Nat.zero_add]
  simp [waitForTxGo, htj, hq]

/-- Witness for C1's amended claim: the populated reply carrying a
nonzero-code response is returned as success. -/
theorem wait_for_tx_returns_any_populated_response_witness :
    wait_for_tx envC1 provisionalRes 10 0 =
      some (.ok failedExecRes, pollTraceFrom envC1 0 0 ++ [.queried 0]) :=
  wait_for_tx_returns_any_populated_response envC1 provisionalRes 10 0 0 failedExecRes
    (fun i hi => absurd hi (Nat.not_lt_zero i))
    (fun i hi => by
      have : i = 0 := Nat.le_zero.mp hi
      subst this
      decide)
    rfl

/-- C3: on any loop iteration of `wait_for_tx` whose query fails with a
`RequestError` carrying one of the whitelisted codes NotFound, Unknown or
InvalidArgument, or succeeds with an empty payload, the loop does not
terminate and returns no error for that outcome: the run equals the run
continuing from the next iteration, with this iteration's query and
one-second sleep prepended to the trace. -/
theorem wait_for_tx_absent_status_keeps_polling
    (env : PollEnv) (response : TxResponse) (timeout fuel k t : Nat)
    (ht : t < timeout) :
    (∀ c, env.query k = .error (.requestError c) → isAbsentCode c = true →
      waitForTxGo env response timeout (fuel + 1) k t =
        (waitForTxGo env response timeout fuel (k + 1) (t + env.lat k + oneSecond)).map
          (fun r => (r.1, .queried k :: .slept oneSecond :: r.2))) ∧
    (env.query k = .ok { tx_response := none } →
      waitForTxGo env response timeout (fuel + 1) k t =
        (waitForTxGo env response timeout fuel (k + 1) (t + env.lat k + oneSecond)).map
          (fun r => (r.1, .queried k :: .slept oneSecond :: r.2))) := by
  constructor
  · intro c hq hc
    simp [waitForTxGo, ht, hq, hc]
  · intro hq
    simp [waitForTxGo, ht, hq]

/-- Witness for C3: against an environment always answering `Unknown`, the
loop keeps polling through every iteration and only the deadline ends the
run. -/
theorem wait_for_tx_absent_status_keeps_polling_witness :
    waitForTxGo envC3 provisionalRes 3000 (4 + 1) 0 0 =
      some (.error (.transactionFailed provisionalRes 3000),
        [.queried 0, .slept 1000, .queried 1, .slept 1000, .queried 2, .slept 1000]) := by
  rw [(wait_for_tx_absent_status_keeps_polling envC3 provisionalRes 3000 4 0 0
    (by decide)).1 TonicCode.unknown rfl rfl]
  rfl

/-- Run of the polling loop against an environment whose every query keeps
it polling: only the deadline exit remains, whatever the fuel, provided the
fuel covers the budget. -/
theorem waitForTxGo_all_absent (env : PollEnv) (response : TxResponse) (timeout : Nat)
    (habs : ∀ k, isPollingOutcome (env.query k) = true) :
    ∀ fuel k t, timeout ≤ t + fuel →
      (waitForTxGo env response timeout fuel k t).map Prod.fst =
        some (.error (.transactionFailed response timeout)) := by
  intro fuel
  induction fuel with
  | zero =>
    intro k t h
    have ht : ¬ t < timeout := by omega
    simp [waitForTxGo, ht]
  | succ fuel ih =>
    intro k t h
    by_cases ht : t < timeout
    · have hq := habs k
      simp only [waitForTxGo, ht, if_true]
      cases hqk : env.query k with
      | ok status =>
        rw [hqk] at hq
        cases hs : status.tx_response with
        | some res => simp [isPollingOutcome, hs] at hq
        | none =>
          have hrec := ih (k + 1) (t + env.lat k + oneSecond) (by simp [oneSecond]; omega)
          cases hgo : waitForTxGo env response timeout fuel (k + 1) (t + env.lat k + oneSecond) with
          | none => rw [hgo] at hrec; simp at hrec
          | some r =>
            rw [hgo] at hrec
            simp only [Option.map_some'] at hrec
            simp [hs, hgo]
            injection hrec
      | error e =>
        rw [hqk] at hq
        cases e with
        | requestError c =>
          simp only [isPollingOutcome] at hq
          have hrec := ih (k + 1) (t + env.lat k + oneSecond) (by simp [oneSecond]; omega)
          cases hgo : waitForTxGo env response timeout fuel (k + 1) (t + env.lat k + oneSecond) with
          | none => rw [hgo] at hrec; simp at hrec
          | some r =>
            rw [hgo] at hrec
            simp only [Option.map_some'] at hrec
            simp [hq, hgo]
            injection hrec
        | insufficientFees v => simp [isPollingOutcome] at hq
        | transactionFailed tx time => simp [isPollingOutcome] at hq
        | connectionError msg => simp [isPollingOutcome] at hq
        | malformedResponse msg => simp [isPollingOutcome] at hq
    · simp [waitForTxGo, ht]

/-- C4: for every call to `wait_for_tx` whose every query keeps the loop
polling (empty payload or whitelisted absent status), the budget is
exhausted and the call returns a `TransactionFailed` error carrying the
original provisional response and, as elapsed time, exactly the configured
timeout. -/
theorem wait_for_tx_all_absent_times_out
    (env : PollEnv) (response : TxResponse) (timeout t0 : Nat)
    (habs : ∀ k, isPollingOutcome (env.query k) = true) :
    (wait_for_tx env response timeout t0).map Prod.fst =
      some (.error (.transactionFailed response timeout)) :=
  waitForTxGo_all_absent env response timeout habs (timeout + 1) 0 t0 (by omega)

/-- Witness for C4: against an environment always answering `NotFound`, the
run ends with the timeout failure carrying exactly the configured 2500 ms
budget as elapsed time. -/
theorem wait_for_tx_all_absent_times_out_witness :
    (wait_for_tx envC4 provisionalRes 2500 0).map Prod.fst =
      some (.error (.transactionFailed provisionalRes 2500)) :=
  wait_for_tx_all_absent_times_out envC4 provisionalRes 2500 0 (fun _ => rfl)

/-- Every sleep event recorded by a run of the polling loop has duration
exactly `oneSecond`, whatever the environment and budget. -/
theorem waitForTxGo_sleep_durations (env : PollEnv) (response : TxResponse) (timeout : Nat) :
    ∀ fuel k t r trace,
      waitForTxGo env response timeout fuel k t = some (r, trace) →
      ∀ d, Event.slept d ∈ trace → d = oneSecond := by
  intro fuel
  induction fuel with
  | zero =>
    intro k t r trace h d hd
    by_cases ht : t < timeout
    · simp [waitForTxGo, ht] at h
    · simp [waitForTxGo, ht] at h
      rw [h.2] at hd
      simp at hd
  | succ fuel ih =>
    intro k t r trace h d hd
    by_cases ht : t < timeout
    · simp only [waitForTxGo, ht, if_true] at h
      cases hq : env.query k with
      | ok status =>
        rw [hq] at h
        cases hs : status.tx_response with
        | some res =>
          simp [hs] at h
          rw [← h.2] at hd
          simp at hd
        | none =>
          simp only [hs] at h
          rw [Option.map_eq_some'] at h
          obtain ⟨⟨r', tr'⟩, hgo, heq⟩ := h
          rw [Prod.mk.injEq] at heq
          rw [← heq.2] at hd
          simp at hd
          rcases hd with hd | hd
          · exact hd
          · exact ih (k + 1) (t + env.lat k + oneSecond) r' tr' hgo d hd
      | error e =>
        rw [hq] at h
        cases e with
        | requestError c =>
          by_cases hc : isAbsentCode c
          · simp only [hc, if_true] at h
            rw [Option.map_eq_some'] at h
            obtain ⟨⟨r', tr'⟩, hgo, heq⟩ := h
            rw [Prod.mk.injEq] at heq
            rw [← heq.2] at hd
            simp at hd
            rcases hd with hd | hd
            · exact hd
            · exact ih (k + 1) (t + env.lat k + oneSecond) r' tr' hgo d hd
          · simp [hc] at h
            rw [← h.2] at hd
            simp at hd
        | insufficientFees v =>
          simp at h; rw [← h.2] at hd; simp at hd
        | transactionFailed tx time =>
          simp at h; rw [← h.2] at hd; simp at hd
        | connectionError msg =>
          simp at h; rw [← h.2] at hd; simp at hd
        | malformedResponse msg =>
          simp at h; rw [← h.2] at hd; simp at hd
    · simp [waitForTxGo, ht] at h
      rw [h.2] at hd
      simp at hd

/-- C9: in every run of `wait_for_tx`, each sleep between polling
iterations lasts exactly one second — the interval is fixed and never
grows. -/
theorem wait_for_tx_fixed_one_second_sleep
    (env : PollEnv) (response : TxResponse) (timeout t0 : Nat)
    (r : Except CosmosGrpcError TxResponse) (trace : List Event)
    (h : wait_for_tx env response timeout t0 = some (r, trace)) :
    ∀ d, Event.slept d ∈ trace → d = oneSecond :=
  waitForTxGo_sleep_durations env response timeout (timeout + 1) 0 t0 r trace h

/-- Witness for C9: a run that polls once, sleeps once and then confirms
records that sleep with duration 1000 ms, which is `oneSecond`. -/
theorem wait_for_tx_fixed_one_second_sleep_witness : (1000 : Nat) = oneSecond :=
  wait_for_tx_fixed_one_second_sleep envC9 provisionalRes 3000 0 (.ok provisionalRes)
    [.queried 0, .slept 1000, .queried 1] rfl 1000 (by decide)

/-- C5: for every broadcast response received by `send_transaction`, the
fee-rejection check comes first: a fee signal yields `InsufficientFees`
with the extracted minimum fee/gas regardless of the result code;
otherwise result code zero yields success and a nonzero code yields
`TransactionFailed`. -/
theorem send_transaction_classification_order
    (determine_min_fees_and_gas : TxResponse → Option FeeInfo) (response : TxResponse) :
    (∀ v, determine_min_fees_and_gas response = some v →
      send_transaction determine_min_fees_and_gas (some response) =
        .value (.error (.insufficientFees v))) ∧
    (determine_min_fees_and_gas response = none → response.code = 0 →
      send_transaction determine_min_fees_and_gas (some response) =
        .value (.ok response)) ∧
    (determine_min_fees_and_gas response = none → response.code ≠ 0 →
      send_transaction determine_min_fees_and_gas (some response) =
        .value (.error (.transactionFailed response 0))) := by
  refine ⟨?_, ?_, ?_⟩
  · intro v hv
    simp [send_transaction, hv]
  · intro hn hc
    simp [send_transaction, hn, check_tx_response, hc]
  · intro hn hc
    simp [send_transaction, hn, check_tx_response, hc]

/-- Witness for C5: a fee-signalling response with nonzero code 13 yields
`InsufficientFees`; without a fee signal, code 0 yields success and code 11
yields `TransactionFailed`. -/
theorem send_transaction_classification_order_witness :
    send_transaction feeSigC5 (some resC5fee) =
      .value (.error (.insufficientFees { min_fee := some 25, min_gas := some 100000 })) ∧
    send_transaction feeSigC5 (some resC5ok) = .value (.ok resC5ok) ∧
    send_transaction feeSigC5 (some resC5bad) =
      .value (.error (.transactionFailed resC5bad 0)) :=
  ⟨(send_transaction_classification_order feeSigC5 resC5fee).1
      { min_fee := some 25, min_gas := some 100000 } (by decide),
   (send_transaction_classification_order feeSigC5 resC5ok).2.1 (by decide) rfl,
   (send_transaction_classification_order feeSigC5 resC5bad).2.2 (by decide) (by decide)⟩

/-- C8: for every broadcast response in `send_transaction` with no
fee-rejection signal and a nonzero result code, the call returns a
synchronous `TransactionFailed` error whose recorded elapsed time is
exactly zero. -/
theorem send_transaction_failed_zero_elapsed
    (determine_min_fees_and_gas : TxResponse → Option FeeInfo) (response : TxResponse)
    (hfee : determine_min_fees_and_gas response = none)
    (hcode : response.code ≠ 0) :
    send_transaction determine_min_fees_and_gas (some response) =
      .value (.error (.transactionFailed response 0)) := by
  simp [send_transaction, hfee, check_tx_response, hcode]

/-- Witness for C8: a nonzero-code response with no fee signal produces
`TransactionFailed` with elapsed time zero. -/
theorem send_transaction_failed_zero_elapsed_witness :
    send_transaction noFeeSignalC8 (some resC8) =
      .value (.error (.transactionFailed resC8 0)) :=
  send_transaction_failed_zero_elapsed noFeeSignalC8 resC8 rfl (by decide)

/-- C6, counterexample: a broadcast reply without its `tx_response` record
and a simulate reply without its `gas_info` record make `send_transaction`
and `simulate_tx` panic (`Option::unwrap` on `None`) instead of returning
any error value to the caller — contradicting the claim that the missing
payload is propagated as a `MalformedResponse` error. -/
theorem missing_payload_panics_cex :
    send_transaction noFeeSignalC6 none = .panicked unwrapPanicMsg ∧
    simulate_tx none = .panicked unwrapPanicMsg :=
  ⟨rfl, rfl⟩

/-- C6, amended: for every node reply missing its required payload field,
`send_transaction` and `simulate_tx` treat the condition as fatal by
panicking immediately (unwrap on the missing field), rather than returning
a `MalformedResponse` error value to the caller. -/
theorem missing_payload_panics
    (determine_min_fees_and_gas : TxResponse → Option FeeInfo) :
    send_transaction determine_min_fees_and_gas none = .panicked unwrapPanicMsg ∧
    simulate_tx none = .panicked unwrapPanicMsg :=
  ⟨rfl, rfl⟩

end DeepSpace
